import Mathlib

/-!
Shallow embedding of the film-fan-finder core: the Preference Store
(profile reducers from the React context provider) and the Recommendation
Deriver (tag extraction, mood- and tag-based recommendation functions from
the TMDB service module), together with proofs about them.

Remote catalog responses are passed in explicitly (a `Catalog` of pure
functions), so every derivation is a pure function of its inputs, exactly
as the spec describes the Deriver.
-/

/-- Modelled from the spec: the `Genre` record of the data model (the
types module itself is not among the provided sources): integer
identifier and display name. -/
structure Genre where
  id : Int
  name : String
deriving DecidableEq

/-- Modelled from the spec: the `Movie` record of the data model (the
types module itself is not among the provided sources): integer
identifier, title, nullable poster path, and either a list of genre
identifiers (`genre_ids`, as returned by list endpoints) or embedded
genre records (`genres`, as returned by the details endpoint); either
field may be absent.  An absent array field is `none`; a present but
empty array is `some []` (JavaScript treats an empty array as truthy,
so the two behave differently in the extraction code). -/
structure Movie where
  id : Int
  title : String
  poster_path : Option String
  genre_ids : Option (List Int)
  genres : Option (List Genre)
deriving DecidableEq

/-- Modelled from the spec: the `Tag` record of the data model (the types
module itself is not among the provided sources): string identifier,
display name, origin (`"auto"` or `"manual"`) and kind (currently only
`"genre"`, extensible — hence plain strings here). -/
structure MovieTag where
  id : String
  name : String
  source : String
  type : String
deriving DecidableEq

/-- Modelled from the spec: `Mood` is one of a fixed enumeration of
strings; at runtime (after type erasure) any string can flow in, which is
what the unknown-mood degradation clause is about, so it is modelled as
`String`. -/
abbrev Mood := String

/-- Modelled from the spec: the `UserProfile` state of the Preference
Store: three movie lists, a tag list, and an optional current mood. -/
structure UserProfile where
  likedMovies : List Movie
  dislikedMovies : List Movie
  avoidedMovies : List Movie
  tags : List MovieTag
  currentMood : Option Mood
deriving DecidableEq

/-- The initial (empty) profile, from the provider module. -/
def initialProfile : UserProfile :=
  { likedMovies := []
    dislikedMovies := []
    avoidedMovies := []
    tags := []
    currentMood := none }

/-- The `addLikedMovie` reducer of the ProfileProvider: filter the movie's
id out of disliked and avoided; if the id is already liked return the
previous snapshot unchanged, otherwise append to liked and install the
filtered other two lists. -/
def addLikedMovie (movie : Movie) (prev : UserProfile) : UserProfile :=
  let filteredDisliked := prev.dislikedMovies.filter (fun m => m.id != movie.id)
  let filteredAvoided := prev.avoidedMovies.filter (fun m => m.id != movie.id)
  if prev.likedMovies.any (fun m => m.id == movie.id) then prev
  else
    { prev with
      likedMovies := prev.likedMovies ++ [movie]
      dislikedMovies := filteredDisliked
      avoidedMovies := filteredAvoided }

/-- The `removeLikedMovie` reducer: drop movies with the given id from the
liked list. -/
def removeLikedMovie (movieId : Int) (prev : UserProfile) : UserProfile :=
  { prev with likedMovies := prev.likedMovies.filter (fun m => m.id != movieId) }

/-- The `addDislikedMovie` reducer, symmetric to `addLikedMovie`. -/
def addDislikedMovie (movie : Movie) (prev : UserProfile) : UserProfile :=
  let filteredLiked := prev.likedMovies.filter (fun m => m.id != movie.id)
  let filteredAvoided := prev.avoidedMovies.filter (fun m => m.id != movie.id)
  if prev.dislikedMovies.any (fun m => m.id == movie.id) then prev
  else
    { prev with
      dislikedMovies := prev.dislikedMovies ++ [movie]
      likedMovies := filteredLiked
      avoidedMovies := filteredAvoided }

/-- The `removeDislikedMovie` reducer. -/
def removeDislikedMovie (movieId : Int) (prev : UserProfile) : UserProfile :=
  { prev with dislikedMovies := prev.dislikedMovies.filter (fun m => m.id != movieId) }

/-- The `addAvoidedMovie` reducer, symmetric to `addLikedMovie`. -/
def addAvoidedMovie (movie : Movie) (prev : UserProfile) : UserProfile :=
  let filteredLiked := prev.likedMovies.filter (fun m => m.id != movie.id)
  let filteredDisliked := prev.dislikedMovies.filter (fun m => m.id != movie.id)
  if prev.avoidedMovies.any (fun m => m.id == movie.id) then prev
  else
    { prev with
      avoidedMovies := prev.avoidedMovies ++ [movie]
      likedMovies := filteredLiked
      dislikedMovies := filteredDisliked }

/-- The `removeAvoidedMovie` reducer. -/
def removeAvoidedMovie (movieId : Int) (prev : UserProfile) : UserProfile :=
  { prev with avoidedMovies := prev.avoidedMovies.filter (fun m => m.id != movieId) }

/-- The `addTag` reducer: no-op when the tag id is already present,
otherwise append. -/
def addTag (tag : MovieTag) (prev : UserProfile) : UserProfile :=
  if prev.tags.any (fun t => t.id == tag.id) then prev
  else { prev with tags := prev.tags ++ [tag] }

/-- The `removeTag` reducer. -/
def removeTag (tagId : String) (prev : UserProfile) : UserProfile :=
  { prev with tags := prev.tags.filter (fun t => t.id != tagId) }

/-- The `setCurrentMood` reducer: unconditional overwrite. -/
def setCurrentMood (mood : Mood) (prev : UserProfile) : UserProfile :=
  { prev with currentMood := some mood }

/-- The `clearProfile` reducer: reset to the initial profile. -/
def clearProfile (_prev : UserProfile) : UserProfile :=
  initialProfile

/-- One mutation entry point of the Preference Store.  All mutations
funnel through one serialized state-update path, so a session is a list
of these operations applied in order. -/
inductive ProfileOp where
  | addLiked (m : Movie)
  | removeLiked (id : Int)
  | addDisliked (m : Movie)
  | removeDisliked (id : Int)
  | addAvoided (m : Movie)
  | removeAvoided (id : Int)
  | addTagOp (t : MovieTag)
  | removeTagOp (id : String)
  | setMood (mood : Mood)
  | clear

/-- Apply one Store operation to a snapshot. -/
def applyOp (p : UserProfile) : ProfileOp → UserProfile
  | .addLiked m => addLikedMovie m p
  | .removeLiked i => removeLikedMovie i p
  | .addDisliked m => addDislikedMovie m p
  | .removeDisliked i => removeDislikedMovie i p
  | .addAvoided m => addAvoidedMovie m p
  | .removeAvoided i => removeAvoidedMovie i p
  | .addTagOp t => addTag t p
  | .removeTagOp i => removeTag i p
  | .setMood mo => setCurrentMood mo p
  | .clear => clearProfile p

/-- Run a finite sequence of Store operations from a starting snapshot. -/
def runOps (ops : List ProfileOp) (p : UserProfile) : UserProfile :=
  ops.foldl applyOp p

/-- A movie list contains the id `i` (the `some(m => m.id === i)` test of
the provider). -/
def hasId (l : List Movie) (i : Int) : Bool :=
  l.any (fun m => m.id == i)

/-- No movie identifier occurs in two of the three lists. -/
def ExclusiveLists (L D A : List Movie) : Prop :=
  ∀ i : Int,
    ¬(hasId L i = true ∧ hasId D i = true) ∧
    ¬(hasId L i = true ∧ hasId A i = true) ∧
    ¬(hasId D i = true ∧ hasId A i = true)

/-- Mutual-exclusivity invariant of the data model: a movie identifier
appears in at most one of the liked, disliked and avoided lists. -/
def MutuallyExclusive (p : UserProfile) : Prop :=
  ExclusiveLists p.likedMovies p.dislikedMovies p.avoidedMovies

/-- The poster-URL utility: a falsy poster path (null or the empty
string) yields the local placeholder, otherwise the TMDB image base URL
followed by the size token and the path.  The source's default size is
"w500". -/
def getMoviePosterUrl (posterPath : Option String) (size : String) : String :=
  match posterPath with
  | none => "/placeholder.svg"
  | some p => if p = "" then "/placeholder.svg" else "https://image.tmdb.org/t/p/" ++ size ++ p

/-- Whitespace skipped by JS parseInt before the number. -/
def isJsSpace (c : Char) : Bool :=
  c == ' ' || c == '\t' || c == '\n' || c == '\r'

/-- Decimal digit value, if any. -/
def decDigitVal (c : Char) : Option Nat :=
  if '0' ≤ c ∧ c ≤ '9' then some (c.toNat - Char.toNat '0') else none

/-- Hexadecimal digit value, if any. -/
def hexDigitVal (c : Char) : Option Nat :=
  if '0' ≤ c ∧ c ≤ '9' then some (c.toNat - Char.toNat '0')
  else if 'a' ≤ c ∧ c ≤ 'f' then some (c.toNat - Char.toNat 'a' + 10)
  else if 'A' ≤ c ∧ c ≤ 'F' then some (c.toNat - Char.toNat 'A' + 10)
  else none

/-- Accumulate the value of the longest leading run of digits; `none`
when there is no leading digit at all (parseInt's NaN case). -/
def readDigits (dv : Char → Option Nat) (base : Nat) : List Char → Option Nat → Option Nat
  | [], acc => acc
  | c :: cs, acc =>
    match dv c with
    | some d => readDigits dv base cs (some (acc.getD 0 * base + d))
    | none => acc

/-- Model of the JS `parseInt(string)` builtin used by the genre-id
extraction: skip leading whitespace, read an optional sign, detect a
"0x"/"0X" hexadecimal marker, then read the longest leading digit run;
`none` models NaN (no digit found). -/
def jsParseInt (s : String) : Option Int :=
  let l0 := s.toList.dropWhile isJsSpace
  let signAndRest : Int × List Char :=
    match l0 with
    | '-' :: r => (-1, r)
    | '+' :: r => (1, r)
    | _ => (1, l0)
  let baseAndRest : Nat × List Char :=
    match signAndRest.2 with
    | '0' :: 'x' :: r => (16, r)
    | '0' :: 'X' :: r => (16, r)
    | _ => (10, signAndRest.2)
  let dv := if baseAndRest.1 == 16 then hexDigitVal else decDigitVal
  match readDigits dv baseAndRest.1 baseAndRest.2 none with
  | some n => some (signAndRest.1 * (n : Int))
  | none => none

/-- Does `pat` occur as an initial segment of `l`? -/
def beginsWith : List Char → List Char → Bool
  | [], _ => true
  | _ :: _, [] => false
  | p :: ps, c :: cs => p == c && beginsWith ps cs

/-- Remove the first (leftmost) occurrence of `pat` from the character
list; identity when `pat` never occurs. -/
def removeFirstList (pat : List Char) : List Char → List Char
  | [] => []
  | c :: cs =>
    if beginsWith pat (c :: cs) then (c :: cs).drop pat.length
    else c :: removeFirstList pat cs

/-- Model of the JS `s.replace(pat, '')` call of the genre-id extraction:
with a string pattern, `String.replace` replaces only the first
occurrence. -/
def replaceFirstOcc (s pat : String) : String :=
  String.mk (removeFirstList pat.toList s.toList)

/-- The genre-id extraction step of getTagBasedRecommendations: keep the
genre-kind tags, apply parseInt to each tag id with its first occurrence
of "genre-" removed, and drop the NaN results. -/
def extractGenreIds (tags : List MovieTag) : List Int :=
  ((tags.filter (fun t => t.type == "genre")).map
    (fun t => jsParseInt (replaceFirstOcc t.id "genre-"))).reduceOption

/-- The remote catalog collaborator, passed in as pure functions so every
derivation is a pure function of its inputs.  `discover` receives the
optional with_genres parameter exactly as the code builds it: absent
(`none`) when the tag-based path derives no genre ids, or the
comma-joined id string (possibly empty, on the mood path) otherwise. -/
structure Catalog where
  popular : Nat → List Movie
  discover : Option String → Nat → List Movie

/-- getTagBasedRecommendations: derive genre ids from the tags; on the
cold-start path (no genre ids and no liked movies) return the popular
listing as is; otherwise issue the discover query (with the with_genres
parameter when there are genre ids) and, when there is anything to
exclude, filter out disliked and avoided ids. -/
def getTagBasedRecommendations (catalog : Catalog) (tags : List MovieTag)
    (likedMovieIds dislikedMovieIds avoidedMovieIds : List Int) (page : Nat) : List Movie :=
  let genreIds := extractGenreIds tags
  if genreIds.isEmpty && likedMovieIds.isEmpty then
    catalog.popular page
  else
    let withGenres : Option String :=
      if genreIds.isEmpty then none
      else some (String.intercalate "," (genreIds.map toString))
    let results := catalog.discover withGenres page
    if !dislikedMovieIds.isEmpty || !avoidedMovieIds.isEmpty then
      results.filter (fun movie =>
        !(dislikedMovieIds.contains movie.id) && !(avoidedMovieIds.contains movie.id))
    else results

/-- The static mood-to-genres table of getMoodBasedRecommendations; a
mood outside the enumeration falls through the switch and leaves the
genre list empty. -/
def moodGenreIds (mood : Mood) : List Int :=
  if mood == "happy" then [35, 10751]
  else if mood == "sad" then [18, 10749]
  else if mood == "excited" then [28, 12, 878]
  else if mood == "relaxed" then [16, 35, 10751]
  else if mood == "thoughtful" then [99, 36, 18]
  else if mood == "tense" then [27, 53, 9648]
  else []

/-- getMoodBasedRecommendations: join the mood's genre ids into the
with_genres parameter (the empty string when there are none) and issue
the discover query. -/
def getMoodBasedRecommendations (catalog : Catalog) (mood : Mood) (page : Nat) : List Movie :=
  let genreIds := moodGenreIds mood
  let genreParam := String.intercalate "," (genreIds.map toString)
  catalog.discover (some genreParam) page

/-- The genre list a movie contributes in extractTagsFromMovies:
`genre_ids` when that field is present (a present empty array is truthy
in JS, so it wins even when empty), else the ids of the embedded
`genres` records, else nothing. -/
def movieGenreList (movie : Movie) : List Int :=
  match movie.genre_ids with
  | some l => l
  | none =>
    match movie.genres with
    | some gs => gs.map Genre.id
    | none => []

/-- One `genreMap.set(genreId, current + 1)` step on the insertion-ordered
association-list model of the JS Map: bump the count in place when the
key exists, else append the key with count 1. -/
def bumpCount (g : Int) : List (Int × Nat) → List (Int × Nat)
  | [] => [(g, 1)]
  | (k, c) :: rest => if k == g then (k, c + 1) :: rest else (k, c) :: bumpCount g rest

/-- The genre-frequency map built by extractTagsFromMovies over the input
movie list, as its insertion-ordered entry list (JS Maps iterate in key
insertion order). -/
def genreFrequency (movies : List Movie) : List (Int × Nat) :=
  movies.foldl (fun acc m => (movieGenreList m).foldl (fun a g => bumpCount g a) acc) []

/-- Insert an entry into a list, after every entry of strictly larger
count and before the first entry of smaller-or-equal count.  Folding this
from the right is the stable descending-by-count sort performed by
`.sort((a, b) => b[1] - a[1])` (JS `Array.prototype.sort` is stable, and
on a total comparator every stable sort produces the same list). -/
def insertByCount (x : Int × Nat) : List (Int × Nat) → List (Int × Nat)
  | [] => [x]
  | y :: ys => if x.2 ≥ y.2 then x :: y :: ys else y :: insertByCount x ys

/-- Stable sort of the frequency entries by descending count. -/
def sortByCountDesc (l : List (Int × Nat)) : List (Int × Nat) :=
  l.foldr insertByCount []

/-- extractTagsFromMovies: build the genre-frequency map, sort its
entries by descending count, and emit one auto-origin genre-kind tag per
entry, resolving the display name against the genre reference list (the
code fetches that list itself; here it is a parameter, as in the spec's
deriveTags signature).  A found genre whose name is the empty string is
falsy in JS, so it also falls back to "Unknown Genre". -/
def extractTagsFromMovies (movies : List Movie) (genres : List Genre) : List MovieTag :=
  (sortByCountDesc (genreFrequency movies)).map (fun e =>
    { id := "genre-" ++ toString e.1
      name :=
        match genres.find? (fun g => g.id == e.1) with
        | some g => if g.name = "" then "Unknown Genre" else g.name
        | none => "Unknown Genre"
      source := "auto"
      type := "genre" })

theorem hasId_eq_true_iff (l : List Movie) (i : Int) :
    hasId l i = true ↔ ∃ m ∈ l, m.id = i := by
  simp [hasId, List.any_eq_true]

theorem hasId_filter_ne (l : List Movie) (j i : Int) :
    hasId (l.filter (fun m => m.id != j)) i = true ↔ hasId l i = true ∧ i ≠ j := by
  simp only [hasId_eq_true_iff, List.mem_filter, bne_iff_ne, ne_eq]
  constructor
  · rintro ⟨m, ⟨hm, hne⟩, hid⟩
    exact ⟨⟨m, hm, hid⟩, by rw [← hid]; exact hne⟩
  · rintro ⟨⟨m, hm, hid⟩, hne⟩
    exact ⟨m, ⟨hm, by rw [hid]; exact hne⟩, hid⟩

theorem hasId_append_single (l : List Movie) (m : Movie) (i : Int) :
    hasId (l ++ [m]) i = true ↔ hasId l i = true ∨ m.id = i := by
  simp [hasId_eq_true_iff, or_comm]

theorem hasId_filter_le (l : List Movie) (q : Movie → Bool) (i : Int) :
    hasId (l.filter q) i = true → hasId l i = true := by
  simp only [hasId_eq_true_iff, List.mem_filter]
  rintro ⟨m, ⟨hm, _⟩, hid⟩
  exact ⟨m, hm, hid⟩

theorem exclusiveLists_rotate (L D A : List Movie) (h : ExclusiveLists L D A) :
    ExclusiveLists D A L := by
  intro i
  obtain ⟨h1, h2, h3⟩ := h i
  exact ⟨h3, fun hp => h1 ⟨hp.2, hp.1⟩, fun hp => h2 ⟨hp.2, hp.1⟩⟩

/-- Inserting a fresh movie into the first list while filtering its id
out of the other two preserves mutual exclusivity. -/
theorem exclusiveLists_insert_first (m : Movie) (L D A : List Movie)
    (h : ExclusiveLists L D A) :
    ExclusiveLists (L ++ [m]) (D.filter (fun x => x.id != m.id))
      (A.filter (fun x => x.id != m.id)) := by
  intro i
  obtain ⟨h1, h2, h3⟩ := h i
  refine ⟨?_, ?_, ?_⟩
  · rintro ⟨ha, hb⟩
    rw [hasId_append_single] at ha
    rw [hasId_filter_ne] at hb
    rcases ha with ha | ha
    · exact h1 ⟨ha, hb.1⟩
    · exact hb.2 ha.symm
  · rintro ⟨ha, hc⟩
    rw [hasId_append_single] at ha
    rw [hasId_filter_ne] at hc
    rcases ha with ha | ha
    · exact h2 ⟨ha, hc.1⟩
    · exact hc.2 ha.symm
  · rintro ⟨hb, hc⟩
    rw [hasId_filter_ne] at hb
    rw [hasId_filter_ne] at hc
    exact h3 ⟨hb.1, hc.1⟩

/-- Filtering the first list preserves mutual exclusivity. -/
theorem exclusiveLists_filter_first (q : Movie → Bool) (L D A : List Movie)
    (h : ExclusiveLists L D A) : ExclusiveLists (L.filter q) D A := by
  intro i
  obtain ⟨h1, h2, h3⟩ := h i
  exact ⟨fun hp => h1 ⟨hasId_filter_le _ _ _ hp.1, hp.2⟩,
         fun hp => h2 ⟨hasId_filter_le _ _ _ hp.1, hp.2⟩, h3⟩

theorem mutuallyExclusive_initial : MutuallyExclusive initialProfile := by
  intro i
  simp [initialProfile, hasId]

/-- Every single Store operation preserves the mutual-exclusivity
invariant. -/
theorem mutuallyExclusive_applyOp (op : ProfileOp) (p : UserProfile)
    (h : MutuallyExclusive p) : MutuallyExclusive (applyOp p op) := by
  cases op with
  | addLiked m =>
    show MutuallyExclusive (addLikedMovie m p)
    unfold MutuallyExclusive addLikedMovie
    by_cases hl : p.likedMovies.any (fun x => x.id == m.id) = true
    · simpa [hl] using h
    · simp only [hl, if_false]
      exact exclusiveLists_insert_first m _ _ _ h
  | removeLiked i =>
    show MutuallyExclusive (removeLikedMovie i p)
    unfold MutuallyExclusive removeLikedMovie
    exact exclusiveLists_filter_first _ _ _ _ h
  | addDisliked m =>
    show MutuallyExclusive (addDislikedMovie m p)
    unfold MutuallyExclusive addDislikedMovie
    by_cases hl : p.dislikedMovies.any (fun x => x.id == m.id) = true
    · simpa [hl] using h
    · simp only [hl, if_false]
      exact exclusiveLists_rotate _ _ _ (exclusiveLists_rotate _ _ _
        (exclusiveLists_insert_first m _ _ _ (exclusiveLists_rotate _ _ _ h)))
  | removeDisliked i =>
    show MutuallyExclusive (removeDislikedMovie i p)
    unfold MutuallyExclusive removeDislikedMovie
    exact exclusiveLists_rotate _ _ _ (exclusiveLists_rotate _ _ _
      (exclusiveLists_filter_first _ _ _ _ (exclusiveLists_rotate _ _ _ h)))
  | addAvoided m =>
    show MutuallyExclusive (addAvoidedMovie m p)
    unfold MutuallyExclusive addAvoidedMovie
    by_cases hl : p.avoidedMovies.any (fun x => x.id == m.id) = true
    · simpa [hl] using h
    · simp only [hl, if_false]
      exact exclusiveLists_rotate _ _ _ (exclusiveLists_insert_first m _ _ _
        (exclusiveLists_rotate _ _ _ (exclusiveLists_rotate _ _ _ h)))
  | removeAvoided i =>
    show MutuallyExclusive (removeAvoidedMovie i p)
    unfold MutuallyExclusive removeAvoidedMovie
    exact exclusiveLists_rotate _ _ _ (exclusiveLists_filter_first _ _ _ _
      (exclusiveLists_rotate _ _ _ (exclusiveLists_rotate _ _ _ h)))
  | addTagOp t =>
    show MutuallyExclusive (addTag t p)
    unfold MutuallyExclusive addTag
    by_cases ht : p.tags.any (fun x => x.id == t.id) = true
    · simpa [ht] using h
    · simp only [ht, if_false]
      exact h
  | removeTagOp i =>
    exact h
  | setMood mo =>
    exact h
  | clear =>
    exact mutuallyExclusive_initial

theorem mutuallyExclusive_runOps (ops : List ProfileOp) (p : UserProfile)
    (h : MutuallyExclusive p) : MutuallyExclusive (runOps ops p) := by
  induction ops generalizing p with
  | nil => exact h
  | cons op rest ih => exact ih (applyOp p op) (mutuallyExclusive_applyOp op p h)

/-- A concrete movie used by the closed examples. -/
def movieW : Movie :=
  { id := 42, title := "The Answer", poster_path := none, genre_ids := none, genres := none }

/-- A profile whose disliked list already holds the example movie. -/
def profileDislikedW : UserProfile :=
  { likedMovies := [], dislikedMovies := [movieW], avoidedMovies := [],
    tags := [], currentMood := none }

/-- A profile whose liked list already holds the example movie. -/
def profileLikedW : UserProfile :=
  { likedMovies := [movieW], dislikedMovies := [], avoidedMovies := [],
    tags := [], currentMood := none }

/-- C3: starting from the empty profile, after any finite sequence of
Store operations (the six movie-set operations, and also the tag, mood
and clear operations) every movie identifier appears in at most one of
the liked, disliked and avoided sets. -/
theorem runOps_mutuallyExclusive (ops : List ProfileOp) :
    MutuallyExclusive (runOps ops initialProfile) :=
  mutuallyExclusive_runOps ops initialProfile mutuallyExclusive_initial

/-- C4: for every movie `m` and every profile state of the data model
(one satisfying the mutual-exclusivity invariant the spec declares for
`UserProfile`), after `addLikedMovie m` the id of `m` is in the liked
set and in neither the disliked nor the avoided set, regardless of prior
membership of `m` in disliked or avoided. -/
theorem addLikedMovie_post (m : Movie) (p : UserProfile) (h : MutuallyExclusive p) :
    hasId (addLikedMovie m p).likedMovies m.id = true ∧
    hasId (addLikedMovie m p).dislikedMovies m.id = false ∧
    hasId (addLikedMovie m p).avoidedMovies m.id = false := by
  obtain ⟨h1, h2, _⟩ := h m.id
  unfold addLikedMovie
  by_cases hl : p.likedMovies.any (fun x => x.id == m.id) = true
  · simp only [hl, if_true]
    refine ⟨hl, ?_, ?_⟩
    · cases hD : hasId p.dislikedMovies m.id
      · rfl
      · exact absurd ⟨hl, hD⟩ h1
    · cases hA : hasId p.avoidedMovies m.id
      · rfl
      · exact absurd ⟨hl, hA⟩ h2
  · simp only [hl, if_false]
    refine ⟨?_, ?_, ?_⟩
    · show hasId (p.likedMovies ++ [m]) m.id = true
      rw [hasId_append_single]
      exact Or.inr rfl
    · show hasId (p.dislikedMovies.filter (fun x => x.id != m.id)) m.id = false
      cases hD : hasId (p.dislikedMovies.filter (fun x => x.id != m.id)) m.id
      · rfl
      · exact absurd rfl ((hasId_filter_ne _ _ _).mp hD).2
    · show hasId (p.avoidedMovies.filter (fun x => x.id != m.id)) m.id = false
      cases hA : hasId (p.avoidedMovies.filter (fun x => x.id != m.id)) m.id
      · rfl
      · exact absurd rfl ((hasId_filter_ne _ _ _).mp hA).2

/-- Closed instance of the `addLikedMovie` post-condition: liking a movie
that currently sits in the disliked list moves it. -/
theorem addLikedMovie_post_witness :
    hasId (addLikedMovie movieW profileDislikedW).likedMovies movieW.id = true ∧
    hasId (addLikedMovie movieW profileDislikedW).dislikedMovies movieW.id = false ∧
    hasId (addLikedMovie movieW profileDislikedW).avoidedMovies movieW.id = false :=
  addLikedMovie_post movieW profileDislikedW
    (by intro i; refine ⟨?_, ?_, ?_⟩ <;> simp [profileDislikedW, hasId])

/-- Adding a movie whose id is already liked returns the snapshot
unchanged (the early return of the reducer). -/
theorem addLikedMovie_already (m : Movie) (p : UserProfile)
    (h : p.likedMovies.any (fun x => x.id == m.id) = true) :
    addLikedMovie m p = p := by
  unfold addLikedMovie
  simp [h]

/-- C5: `addLikedMovie` is idempotent: applying it twice yields the same
profile as applying it once, for every starting profile; and on a movie
whose id is already liked it returns the snapshot unchanged. -/
theorem addLikedMovie_idem (m : Movie) (p : UserProfile) :
    addLikedMovie m (addLikedMovie m p) = addLikedMovie m p ∧
    (p.likedMovies.any (fun x => x.id == m.id) = true → addLikedMovie m p = p) := by
  constructor
  · have hany : (addLikedMovie m p).likedMovies.any (fun x => x.id == m.id) = true := by
      unfold addLikedMovie
      by_cases hl : p.likedMovies.any (fun x => x.id == m.id) = true
      · simp [hl]
      · simp [hl]
    exact addLikedMovie_already m (addLikedMovie m p) hany
  · exact addLikedMovie_already m p

/-- Closed instance of idempotence, on a profile that already likes the
example movie. -/
theorem addLikedMovie_idem_witness :
    addLikedMovie movieW (addLikedMovie movieW profileLikedW) =
      addLikedMovie movieW profileLikedW ∧
    addLikedMovie movieW profileLikedW = profileLikedW :=
  ⟨(addLikedMovie_idem movieW profileLikedW).1,
   (addLikedMovie_idem movieW profileLikedW).2 (by decide)⟩

/-- C10: getMoviePosterUrl returns the local placeholder for every falsy
poster path — null and also the empty string — and for every non-empty
path returns the TMDB image base URL followed by the size token and the
path; the source's default size token is "w500". -/
theorem getMoviePosterUrl_spec (p size : String) (h : p ≠ "") :
    getMoviePosterUrl none size = "/placeholder.svg" ∧
    getMoviePosterUrl (some "") size = "/placeholder.svg" ∧
    getMoviePosterUrl (some p) size = "https://image.tmdb.org/t/p/" ++ size ++ p ∧
    getMoviePosterUrl (some p) "w500" = "https://image.tmdb.org/t/p/" ++ "w500" ++ p := by
  refine ⟨rfl, by simp [getMoviePosterUrl], ?_, ?_⟩ <;> simp [getMoviePosterUrl, h]

/-- Closed instance of the poster-URL behaviour at a concrete path. -/
theorem getMoviePosterUrl_spec_witness :
    getMoviePosterUrl none "w500" = "/placeholder.svg" ∧
    getMoviePosterUrl (some "") "w500" = "/placeholder.svg" ∧
    getMoviePosterUrl (some "/abc.jpg") "w500" =
      "https://image.tmdb.org/t/p/" ++ "w500" ++ "/abc.jpg" ∧
    getMoviePosterUrl (some "/abc.jpg") "w500" =
      "https://image.tmdb.org/t/p/" ++ "w500" ++ "/abc.jpg" :=
  getMoviePosterUrl_spec "/abc.jpg" "w500" (by decide)

/-- C8: for every mood value outside the fixed six-element enumeration
and every page, getMoodBasedRecommendations does not fail: it issues the
discover query with an empty genre filter. -/
theorem getMoodBasedRecommendations_unknown (catalog : Catalog) (mood : Mood) (page : Nat)
    (h : mood ∉ (["happy", "sad", "excited", "relaxed", "thoughtful", "tense"] : List String)) :
    getMoodBasedRecommendations catalog mood page = catalog.discover (some "") page := by
  simp only [List.mem_cons, not_or] at h
  obtain ⟨n1, n2, n3, n4, n5, n6, -⟩ := h
  simp [getMoodBasedRecommendations, moodGenreIds, n1, n2, n3, n4, n5, n6]
  rfl

/-- A catalog used by closed examples: discover echoes whether the genre
parameter was present into the movie title. -/
def catalogEchoW : Catalog :=
  { popular := fun _ => []
    discover := fun p _ =>
      [{ id := 1, title := p.getD "absent", poster_path := none,
         genre_ids := none, genres := none }] }

/-- Closed instance of the unknown-mood degradation at the mood value
"angry". -/
theorem getMoodBasedRecommendations_unknown_witness :
    getMoodBasedRecommendations catalogEchoW "angry" 1 = catalogEchoW.discover (some "") 1 :=
  getMoodBasedRecommendations_unknown catalogEchoW "angry" 1 (by decide)

/-- A concrete movie with id 5, used by the closed examples. -/
def movie5 : Movie :=
  { id := 5, title := "Five", poster_path := none, genre_ids := none, genres := none }

/-- A concrete movie with id 7, used by the closed examples. -/
def movie7 : Movie :=
  { id := 7, title := "Seven", poster_path := none, genre_ids := none, genres := none }

/-- A catalog whose popular listing is exactly the movie with id 5. -/
def catalogPop5 : Catalog :=
  { popular := fun _ => [movie5], discover := fun _ _ => [movie5] }

/-- A catalog whose every listing holds the movies with ids 5 and 7. -/
def catalogPop57 : Catalog :=
  { popular := fun _ => [movie5, movie7], discover := fun _ _ => [movie5, movie7] }

/-- C1 counterexample: on the cold-start path (no tags, no liked ids),
with dislikedIds = [5] and the popular fallback containing id 5, the
returned list still contains the movie with id 5 — the early return to
the popular listing skips the exclusion filter. -/
theorem getTagBasedRecommendations_coldStart_cex :
    getTagBasedRecommendations catalogPop5 [] [] [5] [] 1 = [movie5] ∧
    movie5.id ∈ ([5] : List Int) := by
  decide

/-- C1 amended: whenever the discover path is taken — some genre id was
derived from the tags or likedIds is nonempty — the returned list
contains no movie whose id is in dislikedIds or avoidedIds.  (On the
cold-start fallback the popular listing is returned unfiltered, see the
counterexample.) -/
theorem getTagBasedRecommendations_excludes (catalog : Catalog) (tags : List MovieTag)
    (likedIds dislikedIds avoidedIds : List Int) (page : Nat)
    (h : ¬(extractGenreIds tags = [] ∧ likedIds = []))
    (m : Movie)
    (hm : m ∈ getTagBasedRecommendations catalog tags likedIds dislikedIds avoidedIds page) :
    m.id ∉ dislikedIds ∧ m.id ∉ avoidedIds := by
  have hguard : ((extractGenreIds tags).isEmpty && likedIds.isEmpty) = false := by
    cases hg : (extractGenreIds tags).isEmpty && likedIds.isEmpty
    · rfl
    · rw [Bool.and_eq_true, List.isEmpty_iff, List.isEmpty_iff] at hg
      exact absurd hg h
  simp only [getTagBasedRecommendations, hguard, Bool.false_eq_true, if_false] at hm
  by_cases hda : (!dislikedIds.isEmpty || !avoidedIds.isEmpty) = true
  · rw [if_pos hda] at hm
    rw [List.mem_filter] at hm
    have hf := hm.2
    simp at hf
    exact hf
  · rw [if_neg hda] at hm
    have hd : dislikedIds = [] := by
      rcases dislikedIds with _ | ⟨x, xs⟩
      · rfl
      · exact absurd (by simp) hda
    have ha : avoidedIds = [] := by
      rcases avoidedIds with _ | ⟨x, xs⟩
      · rfl
      · exact absurd (by simp) hda
    rw [hd, ha]
    exact ⟨List.not_mem_nil m.id, List.not_mem_nil m.id⟩

/-- Closed instance of the amended exclusion guarantee: with a liked
movie present, the discover result is filtered and the disliked id 5 is
gone. -/
theorem getTagBasedRecommendations_excludes_witness :
    movie7.id ∉ ([5] : List Int) ∧ movie7.id ∉ ([] : List Int) :=
  getTagBasedRecommendations_excludes catalogPop57 [] [1] [5] [] 1 (by decide) movie7 (by decide)

theorem reduceOption_map_eq_filterMap {α β : Type} (l : List α) (f : α → Option β) :
    (l.map f).reduceOption = l.filterMap f := by
  show (l.map f).filterMap id = l.filterMap f
  rw [List.filterMap_map]
  rfl

theorem removeFirstList_of_beginsWith (pat l : List Char) (h : beginsWith pat l = true) :
    removeFirstList pat l = l.drop pat.length := by
  cases l with
  | nil => simp [removeFirstList]
  | cons c cs =>
    rw [removeFirstList, if_pos h]

/-- The claim's reading of the extraction step, following the spec's
words: a genre-kind tag is kept exactly when its id begins with "genre-"
and the suffix after that marker parses as an integer. -/
def specKeepsGenreTag (t : MovieTag) : Bool :=
  t.type == "genre" && beginsWith "genre-".toList t.id.toList &&
    (jsParseInt (String.mk (t.id.toList.drop 6))).isSome

/-- A genre-kind tag whose id is a bare number, with no "genre-" marker. -/
def tagBare7 : MovieTag :=
  { id := "7", name := "Seven", source := "manual", type := "genre" }

/-- C9 counterexample: the genre-kind tag with id "7" has no "genre-"
marker and hence no suffix after "genre-" that could parse, so the claim
says it is dropped; yet the extraction keeps it and yields genre id 7,
because `replace("genre-", "")` leaves "7" unchanged and parseInt
accepts it. -/
theorem extractGenreIds_cex :
    extractGenreIds [tagBare7] = [7] ∧ specKeepsGenreTag tagBare7 = false := by
  decide

/-- C9 amended: the extraction is a total function (nothing raises) that
keeps, among the genre-kind tags, exactly those for which parseInt
accepts the tag id with its first occurrence of "genre-" removed.  For
tag lists whose genre-kind ids all begin with "genre-" — the documented
`genre-<id>` shape — this says: keep exactly those whose suffix after
"genre-" parses as an integer in parseInt's sense, silently dropping
every other tag. -/
theorem extractGenreIds_amended (tags : List MovieTag)
    (h : ∀ t ∈ tags, t.type = "genre" → beginsWith "genre-".toList t.id.toList = true) :
    extractGenreIds tags =
      (tags.filter (fun t => t.type == "genre")).filterMap
        (fun t => jsParseInt (String.mk (t.id.toList.drop 6))) := by
  unfold extractGenreIds
  rw [reduceOption_map_eq_filterMap]
  apply List.filterMap_congr
  intro t ht
  rw [List.mem_filter] at ht
  have hb := h t ht.1 (by simpa using ht.2)
  unfold replaceFirstOcc
  rw [removeFirstList_of_beginsWith _ _ hb]
  have hlen : ("genre-".toList).length = 6 := rfl
  rw [hlen]

/-- A well-formed auto genre tag used by the closed examples. -/
def tagGenre12 : MovieTag :=
  { id := "genre-12", name := "Adventure", source := "auto", type := "genre" }

/-- Closed instance of the amended extraction characterisation on a
well-formed "genre-12" tag. -/
theorem extractGenreIds_amended_witness :
    extractGenreIds [tagGenre12] =
      ([tagGenre12].filter (fun t => t.type == "genre")).filterMap
        (fun t => jsParseInt (String.mk (t.id.toList.drop 6))) :=
  extractGenreIds_amended [tagGenre12] (by decide)

/-- The concatenation of every movie's contributed genre list, in input
order. -/
def allGenreIds : List Movie → List Int
  | [] => []
  | m :: ms => movieGenreList m ++ allGenreIds ms

/-- The count recorded for a genre id in the frequency-map entry list
(0 when the key is absent). -/
def countOf (l : List (Int × Nat)) (g : Int) : Nat :=
  match l with
  | [] => 0
  | (k, c) :: rest => if k = g then c else countOf rest g

theorem countOf_bumpCount (l : List (Int × Nat)) (g x : Int) :
    countOf (bumpCount x l) g = countOf l g + (if x = g then 1 else 0) := by
  induction l with
  | nil =>
    by_cases hx : x = g <;> simp [bumpCount, countOf, hx]
  | cons kc rest ih =>
    obtain ⟨k, c⟩ := kc
    by_cases hk : k = x
    · subst hk
      simp only [bumpCount, beq_self_eq_true, if_true, countOf]
      by_cases hg : k = g <;> simp [hg]
    · have hk2 : (k == x) = false := by simpa using hk
      simp only [bumpCount, hk2, Bool.false_eq_true, if_false, countOf]
      by_cases hg : k = g
      · have hx : ¬(x = g) := fun hxg => hk (by rw [hg, hxg])
        simp [hg, hx]
      · simp [hg, ih]

theorem countOf_foldl_bumpCount (gl : List Int) (acc : List (Int × Nat)) (g : Int) :
    countOf (gl.foldl (fun a x => bumpCount x a) acc) g = countOf acc g + gl.count g := by
  induction gl generalizing acc with
  | nil => simp [countOf]
  | cons x xs ih =>
    rw [List.foldl_cons, ih, countOf_bumpCount, List.count_cons]
    by_cases hx : x = g
    · subst hx
      simp
      omega
    · have hgx : (g == x) = false := by
        simp only [beq_eq_false_iff_ne, ne_eq]
        exact fun hgg => hx hgg.symm
      simp [hx, hgx]

theorem countOf_genreFrequency_aux (movies : List Movie) (acc : List (Int × Nat)) (g : Int) :
    countOf (movies.foldl
        (fun acc2 m => (movieGenreList m).foldl (fun a g2 => bumpCount g2 a) acc2) acc) g =
      countOf acc g + (allGenreIds movies).count g := by
  induction movies generalizing acc with
  | nil => simp [allGenreIds]
  | cons m ms ih =>
    rw [List.foldl_cons, ih, countOf_foldl_bumpCount, allGenreIds, List.count_append]
    omega

/-- C2 amended: the frequency count built by extractTagsFromMovies
records one increment per occurrence of a genre id in a movie's own
genre data: for every movie list and genre id, the recorded count equals
the number of occurrences of that id across the concatenated per-movie
genre lists — so a movie listing the same genre id twice contributes 2
to that genre's count. -/
theorem genreFrequency_counts_occurrences (movies : List Movie) (g : Int) :
    countOf (genreFrequency movies) g = (allGenreIds movies).count g := by
  have h := countOf_genreFrequency_aux movies [] g
  simpa [genreFrequency, countOf] using h

/-- A movie whose own genre data lists genre id 35 twice. -/
def movieDupGenre : Movie :=
  { id := 1, title := "Dup", poster_path := none, genre_ids := some [35, 35], genres := none }

/-- C2 counterexample: a movie listing genre id 35 twice in its own
genre_ids contributes 2 to the count for genre 35, not 1. -/
theorem genreFrequency_dup_cex :
    countOf (genreFrequency [movieDupGenre]) 35 = 2 ∧
    countOf (genreFrequency [movieDupGenre]) 35 ≠ 1 := by
  decide

theorem mem_insertByCount (x z : Int × Nat) (l : List (Int × Nat)) :
    z ∈ insertByCount x l ↔ z = x ∨ z ∈ l := by
  induction l with
  | nil => simp [insertByCount]
  | cons y ys ih =>
    by_cases hxy : x.2 ≥ y.2
    · simp [insertByCount, hxy]
    · simp only [insertByCount, hxy, if_false, List.mem_cons, ih]
      tauto

theorem pairwise_insertByCount (x : Int × Nat) (l : List (Int × Nat))
    (h : l.Pairwise (fun a b => b.2 ≤ a.2)) :
    (insertByCount x l).Pairwise (fun a b => b.2 ≤ a.2) := by
  induction l with
  | nil => simp [insertByCount]
  | cons y ys ih =>
    rw [List.pairwise_cons] at h
    obtain ⟨hy, hys⟩ := h
    by_cases hxy : x.2 ≥ y.2
    · rw [insertByCount, if_pos hxy, List.pairwise_cons]
      refine ⟨?_, List.pairwise_cons.mpr ⟨hy, hys⟩⟩
      intro z hz
      rcases List.mem_cons.mp hz with rfl | hz2
      · exact hxy
      · exact le_trans (hy z hz2) hxy
    · rw [insertByCount, if_neg hxy, List.pairwise_cons]
      refine ⟨?_, ih hys⟩
      intro z hz
      rcases (mem_insertByCount x z ys).mp hz with rfl | hz2
      · exact le_of_not_ge hxy
      · exact hy z hz2

theorem pairwise_sortByCountDesc (l : List (Int × Nat)) :
    (sortByCountDesc l).Pairwise (fun a b => b.2 ≤ a.2) := by
  induction l with
  | nil => simp [sortByCountDesc]
  | cons x xs ih => exact pairwise_insertByCount x _ ih

theorem filter_insertByCount (x : Int × Nat) (l : List (Int × Nat)) (c : Nat) :
    (insertByCount x l).filter (fun e => e.2 == c) =
      if x.2 == c then x :: l.filter (fun e => e.2 == c)
      else l.filter (fun e => e.2 == c) := by
  induction l with
  | nil =>
    by_cases hc : (x.2 == c) = true
    · simp [insertByCount, List.filter, hc]
    · have hc2 : (x.2 == c) = false := by
        cases hb : (x.2 == c)
        · rfl
        · exact absurd hb hc
      simp [insertByCount, List.filter, hc2]
  | cons y ys ih =>
    by_cases hxy : x.2 ≥ y.2
    · rw [insertByCount, if_pos hxy, List.filter_cons]
    · rw [insertByCount, if_neg hxy, List.filter_cons, ih]
      by_cases hx : (x.2 == c) = true
      · have hxc : x.2 = c := by simpa using hx
        have hlt : x.2 < y.2 := not_le.mp hxy
        have hyne : y.2 ≠ c := by omega
        have hyc : (y.2 == c) = false := by simpa using hyne
        simp [hx, hyc, List.filter_cons]
      · have hx2 : (x.2 == c) = false := by
          cases hb : (x.2 == c)
          · rfl
          · exact absurd hb hx
        simp [hx2, List.filter_cons]

theorem filter_sortByCountDesc (l : List (Int × Nat)) (c : Nat) :
    (sortByCountDesc l).filter (fun e => e.2 == c) = l.filter (fun e => e.2 == c) := by
  induction l with
  | nil => rfl
  | cons x xs ih =>
    show (insertByCount x (sortByCountDesc xs)).filter _ = _
    rw [filter_insertByCount, ih, List.filter_cons]

/-- First-encounter order: fold the concatenated genre ids left to
right, appending each id the first time it is seen.  This is the key
insertion order of the JS Map. -/
def dedupFirst (l : List Int) : List Int :=
  l.foldl (fun ks g => if ks.contains g then ks else ks ++ [g]) []

theorem map_fst_bumpCount (x : Int) (l : List (Int × Nat)) :
    (bumpCount x l).map Prod.fst =
      if (l.map Prod.fst).contains x then l.map Prod.fst
      else l.map Prod.fst ++ [x] := by
  induction l with
  | nil => simp [bumpCount]
  | cons kc rest ih =>
    obtain ⟨k, c⟩ := kc
    by_cases hk : k = x
    · subst hk
      simp [bumpCount, List.contains_cons]
    · have hk2 : (k == x) = false := by simpa using hk
      have hxk : (x == k) = false := by
        simp only [beq_eq_false_iff_ne, ne_eq]
        exact fun hxx => hk hxx.symm
      simp only [bumpCount, hk2, Bool.false_eq_true, if_false, List.map_cons, ih]
      by_cases hc : ((rest.map Prod.fst).contains x) = true
      · have hc3 : x ∈ rest.map Prod.fst := by simpa using hc
        simp [hc3]
      · have hc3 : x ∉ rest.map Prod.fst := by simpa using hc
        have hxk3 : ¬(x = k) := fun hxx => hk hxx.symm
        simp [hc3, hxk3]

theorem map_fst_foldl_bumpCount (gl : List Int) (acc : List (Int × Nat)) :
    (gl.foldl (fun a x => bumpCount x a) acc).map Prod.fst =
      gl.foldl (fun ks g => if ks.contains g then ks else ks ++ [g]) (acc.map Prod.fst) := by
  induction gl generalizing acc with
  | nil => rfl
  | cons x xs ih =>
    rw [List.foldl_cons, List.foldl_cons, ih, map_fst_bumpCount]

theorem map_fst_genreFrequency_aux (movies : List Movie) (acc : List (Int × Nat)) :
    (movies.foldl
        (fun acc2 m => (movieGenreList m).foldl (fun a g2 => bumpCount g2 a) acc2) acc).map
        Prod.fst =
      (allGenreIds movies).foldl
        (fun ks g => if ks.contains g then ks else ks ++ [g]) (acc.map Prod.fst) := by
  induction movies generalizing acc with
  | nil => rfl
  | cons m ms ih =>
    rw [List.foldl_cons, ih, map_fst_foldl_bumpCount, allGenreIds, List.foldl_append]

/-- The keys of the genre-frequency map are exactly the genre ids in the
order each was first encountered across the input movies. -/
theorem map_fst_genreFrequency (movies : List Movie) :
    (genreFrequency movies).map Prod.fst = dedupFirst (allGenreIds movies) := by
  have h := map_fst_genreFrequency_aux movies []
  simpa [genreFrequency, dedupFirst] using h

/-- C6: the tag list of extractTagsFromMovies is the image, one tag per
genre id, of the frequency entries sorted by descending count (first
conjunct); that sorted entry list is weakly descending in the counts
(second conjunct); entries of any equal count keep exactly their
pre-sort relative order — the sort is stable (third conjunct); and the
pre-sort entry order is the order in which each genre id was first
encountered in the input (fourth conjunct).  Together: tags are ordered
by descending genre frequency with ties in first-encounter order. -/
theorem extractTagsFromMovies_ordering (movies : List Movie) (genres : List Genre) :
    (extractTagsFromMovies movies genres).map MovieTag.id =
      (sortByCountDesc (genreFrequency movies)).map (fun e => "genre-" ++ toString e.1) ∧
    (sortByCountDesc (genreFrequency movies)).Pairwise (fun a b => b.2 ≤ a.2) ∧
    (∀ c : Nat, (sortByCountDesc (genreFrequency movies)).filter (fun e => e.2 == c) =
      (genreFrequency movies).filter (fun e => e.2 == c)) ∧
    (genreFrequency movies).map Prod.fst = dedupFirst (allGenreIds movies) := by
  refine ⟨?_, pairwise_sortByCountDesc _, fun c => filter_sortByCountDesc _ c,
    map_fst_genreFrequency movies⟩
  simp [extractTagsFromMovies]

/-- Modelled from the spec: the JSON value tree that JSON.stringify
renders and JSON.parse rebuilds.  The persistence round-trip is modelled
at this tree level (the string rendering of a JSON tree is lossless). -/
inductive Json where
  | null : Json
  | num : Int → Json
  | str : String → Json
  | arr : List Json → Json
  | obj : List (String × Json) → Json

/-- Modelled from the spec: JSON.stringify of a Genre record. -/
def encodeGenre (g : Genre) : Json :=
  Json.obj [("id", Json.num g.id), ("name", Json.str g.name)]

/-- Modelled from the spec: JSON.stringify of a Movie record.  A null
poster path is rendered as JSON null (null is kept by stringify); an
absent optional array field is undefined and is omitted entirely. -/
def encodeMovie (m : Movie) : Json :=
  Json.obj
    ([("id", Json.num m.id), ("title", Json.str m.title),
      ("poster_path", match m.poster_path with | none => Json.null | some p => Json.str p)]
      ++ (match m.genre_ids with
          | none => []
          | some l => [("genre_ids", Json.arr (l.map Json.num))])
      ++ (match m.genres with
          | none => []
          | some gs => [("genres", Json.arr (gs.map encodeGenre))]))

/-- Modelled from the spec: JSON.stringify of a Tag record. -/
def encodeTag (t : MovieTag) : Json :=
  Json.obj [("id", Json.str t.id), ("name", Json.str t.name),
            ("source", Json.str t.source), ("type", Json.str t.type)]

/-- Modelled from the spec: JSON.stringify of the UserProfile, as the
provider persists it.  An unset currentMood is undefined, which
stringify omits. -/
def encodeProfile (p : UserProfile) : Json :=
  Json.obj
    ([("likedMovies", Json.arr (p.likedMovies.map encodeMovie)),
      ("dislikedMovies", Json.arr (p.dislikedMovies.map encodeMovie)),
      ("avoidedMovies", Json.arr (p.avoidedMovies.map encodeMovie)),
      ("tags", Json.arr (p.tags.map encodeTag))]
      ++ (match p.currentMood with
          | none => []
          | some mo => [("currentMood", Json.str mo)]))

/-- Property access on a parsed JSON object; `none` is undefined (absent
key or non-object). -/
def getField (j : Json) (k : String) : Option Json :=
  match j with
  | Json.obj fields => fields.lookup k
  | _ => none

/-- Read an integer field. -/
def asInt : Option Json → Option Int
  | some (Json.num n) => some n
  | _ => none

/-- Read a string field. -/
def asStr : Option Json → Option String
  | some (Json.str s) => some s
  | _ => none

/-- Read a nullable string field: JSON null (and an absent field, both
read back as "no value") give `none`. -/
def asNullableStr : Option Json → Option (Option String)
  | some Json.null => some none
  | some (Json.str s) => some (some s)
  | none => some none
  | some _ => none

/-- Rebuild a list of integers from a JSON array's elements. -/
def decodeIntList : List Json → Option (List Int)
  | [] => some []
  | Json.num n :: js =>
    match decodeIntList js with
    | some l => some (n :: l)
    | none => none
  | _ :: _ => none

/-- Rebuild a Genre from its parsed JSON form. -/
def decodeGenre (j : Json) : Option Genre :=
  match asInt (getField j "id"), asStr (getField j "name") with
  | some i, some n => some { id := i, name := n }
  | _, _ => none

/-- Rebuild a list of Genres from a JSON array's elements. -/
def decodeGenreList : List Json → Option (List Genre)
  | [] => some []
  | j :: js =>
    match decodeGenre j, decodeGenreList js with
    | some g, some gs => some (g :: gs)
    | _, _ => none

/-- Rebuild a Movie from its parsed JSON form. -/
def decodeMovie (j : Json) : Option Movie :=
  match asInt (getField j "id"), asStr (getField j "title"),
        asNullableStr (getField j "poster_path") with
  | some i, some t, some pp =>
    let gids : Option (Option (List Int)) :=
      match getField j "genre_ids" with
      | none => some none
      | some (Json.arr js) =>
        match decodeIntList js with
        | some l => some (some l)
        | none => none
      | some _ => none
    let gs : Option (Option (List Genre)) :=
      match getField j "genres" with
      | none => some none
      | some (Json.arr js) =>
        match decodeGenreList js with
        | some l => some (some l)
        | none => none
      | some _ => none
    match gids, gs with
    | some gi, some gg =>
      some { id := i, title := t, poster_path := pp, genre_ids := gi, genres := gg }
    | _, _ => none
  | _, _, _ => none

/-- Rebuild a list of Movies from a JSON array's elements. -/
def decodeMovieList : List Json → Option (List Movie)
  | [] => some []
  | j :: js =>
    match decodeMovie j, decodeMovieList js with
    | some m, some ms => some (m :: ms)
    | _, _ => none

/-- Rebuild a Tag from its parsed JSON form. -/
def decodeTag (j : Json) : Option MovieTag :=
  match asStr (getField j "id"), asStr (getField j "name"),
        asStr (getField j "source"), asStr (getField j "type") with
  | some i, some n, some s, some ty =>
    some { id := i, name := n, source := s, type := ty }
  | _, _, _, _ => none

/-- Rebuild a list of Tags from a JSON array's elements. -/
def decodeTagList : List Json → Option (List MovieTag)
  | [] => some []
  | j :: js =>
    match decodeTag j, decodeTagList js with
    | some t, some ts => some (t :: ts)
    | _, _ => none

/-- Rebuild the UserProfile from its parsed JSON form, as the provider's
load path does (a missing currentMood key reads back as undefined, i.e.
no mood). -/
def decodeProfile (j : Json) : Option UserProfile :=
  match getField j "likedMovies", getField j "dislikedMovies",
        getField j "avoidedMovies", getField j "tags" with
  | some (Json.arr lj), some (Json.arr dj), some (Json.arr aj), some (Json.arr tj) =>
    match decodeMovieList lj, decodeMovieList dj, decodeMovieList aj, decodeTagList tj with
    | some L, some D, some A, some T =>
      let mood : Option Mood :=
        match getField j "currentMood" with
        | some (Json.str s) => some s
        | _ => none
      some { likedMovies := L, dislikedMovies := D, avoidedMovies := A,
             tags := T, currentMood := mood }
    | _, _, _, _ => none
  | _, _, _, _ => none

theorem decodeGenre_encodeGenre (g : Genre) : decodeGenre (encodeGenre g) = some g := rfl

theorem decodeIntList_map (l : List Int) : decodeIntList (l.map Json.num) = some l := by
  induction l with
  | nil => rfl
  | cons x xs ih => simp [decodeIntList, ih]

theorem decodeGenreList_map (gs : List Genre) :
    decodeGenreList (gs.map encodeGenre) = some gs := by
  induction gs with
  | nil => rfl
  | cons g gs2 ih => simp [decodeGenreList, decodeGenre_encodeGenre, ih]

theorem decodeMovie_encodeMovie (m : Movie) : decodeMovie (encodeMovie m) = some m := by
  obtain ⟨i, t, pp, gi, gg⟩ := m
  cases pp <;> cases gi <;> cases gg <;>
    simp [encodeMovie, decodeMovie, getField, asInt, asStr, asNullableStr,
      decodeIntList_map, decodeGenreList_map, List.lookup]

theorem decodeMovieList_map (L : List Movie) :
    decodeMovieList (L.map encodeMovie) = some L := by
  induction L with
  | nil => rfl
  | cons m ms ih => simp [decodeMovieList, decodeMovie_encodeMovie, ih]

theorem decodeTag_encodeTag (t : MovieTag) : decodeTag (encodeTag t) = some t := rfl

theorem decodeTagList_map (T : List MovieTag) :
    decodeTagList (T.map encodeTag) = some T := by
  induction T with
  | nil => rfl
  | cons t ts ih => simp [decodeTagList, decodeTag_encodeTag, ih]

/-- C7: persisting a profile and loading it back — JSON.stringify
followed by JSON.parse, modelled at the JSON value level — yields a
profile equal to the original, for every profile of the data model,
populated or not and with or without a current mood. -/
theorem decodeProfile_encodeProfile (p : UserProfile) :
    decodeProfile (encodeProfile p) = some p := by
  obtain ⟨L, D, A, T, mo⟩ := p
  cases mo <;>
    simp [encodeProfile, decodeProfile, getField, decodeMovieList_map, decodeTagList_map,
      List.lookup]
